import Mathlib

/-!
Shallow embedding of the chat relay server (`chat-app/server.js`).

The server keeps three pieces of process-wide mutable state:
`users` (a `Map` from user id to user record), `userSessions` (a `Map`
from socket id to user id) and `messageHistory` (an array of message
objects, capped at 100 by push-then-shift).  Socket.IO handlers
(`user_login`, `send_message`, `disconnect`) read an inbound payload,
mutate this state and emit events to one socket (`socket.emit`,
`io.to(id).emit`), to all connected sockets (`io.emit`) or to all but
the originating socket (`socket.broadcast.emit`).

We embed the state as explicit structures, JS `Map` as an
insertion-ordered association list (a `Map.set` on an existing key
updates in place; otherwise it appends), and each handler as a pure
function from state and payload to new state plus an ordered list of
emissions.  Non-deterministic inputs of the real code (`Date.now`,
`Math.random`-based message ids, timestamps) are parameters of the
handlers.  JS truthiness on the string-valued fields that the code
guards with `if (x)` / `!x` / `x || y` is modelled by `jsFalsy` /
`jsOr` on `Option String` (absent ⇒ `none`, and `""` is falsy).
-/

/-- JS `String.prototype.trim`: remove leading and trailing whitespace.
(Defined over the character list so that it evaluates by kernel
reduction; agrees with `String.trim` on the ASCII inputs at issue.) -/
def jsTrim (s : String) : String :=
  ⟨((s.data.dropWhile Char.isWhitespace).reverse.dropWhile Char.isWhitespace).reverse⟩

/-- JS truthiness test for an optional string field: `!x` is true when
the field is absent (`undefined`) or the empty string. -/
def jsFalsy (o : Option String) : Bool :=
  decide (o.getD "" = "")

/-- JS `a || b` for an optional string `a` with string fallback `b`. -/
def jsOr (a : Option String) (b : String) : String :=
  if jsFalsy a then b else a.getD ""

/-- JS `Map.get`: value of the first (unique) matching key. -/
def mapGet {α : Type} : List (String × α) → String → Option α
  | [], _ => none
  | (k, v) :: rest, key => if k = key then some v else mapGet rest key

/-- JS `Map.set`: update in place when the key exists, else append. -/
def mapSet {α : Type} : List (String × α) → String → α → List (String × α)
  | [], key, v => [(key, v)]
  | (k, w) :: rest, key, v =>
      if k = key then (key, v) :: rest else (k, w) :: mapSet rest key v

/-- JS `Map.delete`: remove the (unique) entry with the given key. -/
def mapDelete {α : Type} : List (String × α) → String → List (String × α)
  | [], _ => []
  | (k, v) :: rest, key => if k = key then rest else (k, v) :: mapDelete rest key

/-- The user record built by the `user_login` handler (server.js:69-75). -/
structure User where
  id : String
  username : String
  publicKey : String
  socketId : String
  connectedAt : String
deriving DecidableEq, Repr

/-- The `sender` sub-object of a message (server.js:123-126). -/
structure Sender where
  id : String
  username : String
deriving DecidableEq, Repr

/-- The message object built by the `send_message` handler
(server.js:121-130).  `encryptedMessage` is `Option String` because the
handler copies the inbound field without checking it, so it may be
absent. -/
structure Message where
  id : String
  sender : Sender
  encryptedMessage : Option String
  timestamp : String
  type : String
deriving DecidableEq, Repr

/-- The entry of the `online_users` payload (server.js:92-96). -/
structure OnlineUser where
  id : String
  username : String
  publicKey : String
deriving DecidableEq, Repr

/-- An outbound Socket.IO event with its payload. -/
inductive Event where
  | error (message : String)
  | user_connected (userId username timestamp : String) (totalUsers : Nat)
  | online_users (users : List OnlineUser)
  | message_history (messages : List Message)
  | receive_message (m : Message)
  | message_sent (messageId timestamp : String)
  | user_disconnected (userId username timestamp : String) (totalUsers : Nat)
deriving DecidableEq, Repr

/-- The audience of one emission: `io.emit` reaches every connected
socket, `socket.emit` / `io.to(id).emit` reaches one socket. -/
inductive Target where
  | all
  | sock (sid : String)
deriving DecidableEq, Repr

/-- One emission: audience plus event. -/
abbrev Emit := Target × Event

/-- The server's process-wide state: the set of connected sockets
(owned by Socket.IO) and the three global stores of server.js:31-33. -/
structure ServerState where
  connections : List String
  users : List (String × User)
  userSessions : List (String × String)
  messageHistory : List Message
deriving DecidableEq, Repr

/-- State at process start: no connections, empty maps, empty history. -/
def initialState : ServerState := ⟨[], [], [], []⟩

/-- A new client connection: Socket.IO adds the socket id to the set of
connected sockets (server.js:56). -/
def onConnect (st : ServerState) (sid : String) : ServerState :=
  { st with connections := st.connections ++ [sid] }

/-- Resolve the concrete socket ids an emission's audience denotes in a
given state. -/
def deliveryTargets (st : ServerState) : Target → List String
  | Target.all => st.connections
  | Target.sock s => if s ∈ st.connections then [s] else []

/-- `messageHistory.slice(-limit)` (server.js:101): the most recent
`limit` messages, oldest first.  (The code only calls it with positive
`limit`, where this agrees with JS `slice`.) -/
def recentHistory (hist : List Message) (limit : Nat) : List Message :=
  hist.drop (hist.length - limit)

/-- Payload of the inbound `user_login` event (server.js:60-61). -/
structure LoginData where
  username : Option String
  publicKey : Option String
deriving DecidableEq, Repr

/-- The user record built by `user_login` (server.js:69-75): `id` and
`socketId` are the socket id, and the stored display name is the
*trimmed* inbound username. -/
def loginUser (sid : String) (data : LoginData) (now : String) : User :=
  { id := sid, username := jsTrim (data.username.getD ""),
    publicKey := data.publicKey.getD "", socketId := sid, connectedAt := now }

/-- The `user_login` handler (server.js:60-103).  Validation is
`if (!username || !publicKey)`; on success the user record (with the
*trimmed* name) is `set` into both maps, then three emissions follow:
`user_connected` (with the raw name and the new `users.size`) to all,
`online_users` and `message_history` (last 30) to the new socket. -/
def user_login (st : ServerState) (sid : String) (data : LoginData)
    (now : String) : ServerState × List Emit :=
  if jsFalsy data.username || jsFalsy data.publicKey then
    (st, [(Target.sock sid, Event.error "Username and public key required")])
  else
    let username := data.username.getD ""
    let userId := sid
    let user := loginUser sid data now
    let users1 := mapSet st.users userId user
    let sessions1 := mapSet st.userSessions sid userId
    ({ st with users := users1, userSessions := sessions1 },
     [ (Target.all, Event.user_connected userId username now users1.length),
       (Target.sock sid, Event.online_users (users1.map (fun p =>
          { id := p.2.id, username := p.2.username, publicKey := p.2.publicKey }))),
       (Target.sock sid, Event.message_history (recentHistory st.messageHistory 30)) ])

/-- Payload of the inbound `send_message` event (server.js:106-107).
Every field is optional: the handler destructures without checking. -/
structure SendData where
  encryptedMessage : Option String
  recipientId : Option String
  senderUsername : Option String
deriving DecidableEq, Repr

/-- The message object of server.js:121-130: client-supplied
`senderUsername` wins over the registered name when truthy, and `type`
is the constant string `"direct"`. -/
def mkMessageObj (senderId : String) (sender : User) (data : SendData)
    (msgId now : String) : Message :=
  { id := msgId,
    sender := { id := senderId, username := jsOr data.senderUsername sender.username },
    encryptedMessage := data.encryptedMessage,
    timestamp := now,
    type := "direct" }

/-- History append with cap (server.js:132-136): push, then shift the
oldest entry when the length exceeds 100. -/
def pushCap (hist : List Message) (m : Message) : List Message :=
  let h1 := hist ++ [m]
  if h1.length > 100 then h1.tail else h1

/-- Result of running the `send_message` handler: new state, emissions,
and whether the handler threw.  The only throw site is the final log
statement `encryptedMessage.substring(0, 20)` (server.js:159), which is
a `TypeError` when the inbound payload had no `encryptedMessage`; it
happens after all mutation and all emits, and is caught only by the
process-wide `uncaughtException` hook (server.js:236). -/
structure SendResult where
  state : ServerState
  emits : List Emit
  threw : Bool
deriving DecidableEq, Repr

/-- The `send_message` handler (server.js:106-160).  Sender resolution
is two-staged (`userSessions` then `users`); the message is pushed to
history *before* the recipient branch; a truthy `recipientId` selects
unicast (or a `Recipient not found` error), otherwise `io.emit`
broadcast; both success branches ack the sender with `message_sent`. -/
def send_message (st : ServerState) (sid : String) (data : SendData)
    (msgId now : String) : SendResult :=
  let senderIdOpt := mapGet st.userSessions sid
  if jsFalsy senderIdOpt then
    ⟨st, [(Target.sock sid, Event.error "User not authenticated")], false⟩
  else
    let senderId := senderIdOpt.getD ""
    match mapGet st.users senderId with
    | none => ⟨st, [(Target.sock sid, Event.error "Sender not found")], false⟩
    | some sender =>
      let messageObj := mkMessageObj senderId sender data msgId now
      let st1 := { st with messageHistory := pushCap st.messageHistory messageObj }
      let emits :=
        if jsFalsy data.recipientId then
          [ (Target.all, Event.receive_message messageObj),
            (Target.sock sid, Event.message_sent messageObj.id messageObj.timestamp) ]
        else
          match mapGet st.users (data.recipientId.getD "") with
          | some recipient =>
              [ (Target.sock recipient.socketId, Event.receive_message messageObj),
                (Target.sock sid, Event.message_sent messageObj.id messageObj.timestamp) ]
          | none => [ (Target.sock sid, Event.error "Recipient not found") ]
      ⟨st1, emits, data.encryptedMessage.isNone⟩

/-- The `disconnect` handler (server.js:184-202) together with
Socket.IO removing the socket from the connected set: when a session
exists, the user record is deleted and `user_disconnected` (with the
new `users.size`) goes to the remaining sockets; the session entry is
deleted in every case. -/
def disconnect (st : ServerState) (sid : String) (now : String) :
    ServerState × List Emit :=
  let st0 := { st with connections := st.connections.filter (fun c => c ≠ sid) }
  let userIdOpt := mapGet st0.userSessions sid
  if jsFalsy userIdOpt then
    (st0, [])
  else
    let userId := userIdOpt.getD ""
    match mapGet st0.users userId with
    | some user =>
        let users1 := mapDelete st0.users userId
        ({ st0 with
            users := users1
            userSessions := mapDelete st0.userSessions sid },
         [(Target.all, Event.user_disconnected userId user.username now users1.length)])
    | none =>
        ({ st0 with userSessions := mapDelete st0.userSessions sid }, [])

/-- One inbound `send_message` event together with the environment
inputs (generated message id, timestamp) of that invocation. -/
structure SendInput where
  data : SendData
  msgId : String
  now : String
deriving DecidableEq, Repr

/-- Run a sequence of `send_message` events from the same socket. -/
def runSends (st : ServerState) (sid : String) : List SendInput → ServerState
  | [] => st
  | i :: rest => runSends (send_message st sid i.data i.msgId i.now).state sid rest

/-- The message object a given send input produces for a given resolved
sender. -/
def msgOf (senderId : String) (sender : User) (i : SendInput) : Message :=
  mkMessageObj senderId sender i.data i.msgId i.now

/-- Is this event an `error` emission? -/
def isErrorEvent : Event → Bool
  | Event.error _ => true
  | _ => false

/-! ### Concrete states used by witnesses and counterexamples -/

/-- One client (socket id `"A"`) connected, nobody registered. -/
def stA : ServerState := onConnect initialState "A"

/-- Two clients (`"A"`, `"B"`) connected, nobody registered. -/
def stAB : ServerState := onConnect stA "B"

/-- `"A"` connected and registered as `alice`. -/
def stAlice : ServerState :=
  (user_login stA "A" ⟨some "alice", some "pk"⟩ "t0").1

/-- `"A"` and `"B"` connected, only `"A"` registered (as `alice`). -/
def stAliceB : ServerState :=
  (user_login stAB "A" ⟨some "alice", some "pk"⟩ "t0").1

/-! ### Helper lemmas -/

theorem mapGet_mapSet_self {α : Type} (m : List (String × α)) (k : String) (v : α) :
    mapGet (mapSet m k v) k = some v := by
  induction m with
  | nil => simp [mapSet, mapGet]
  | cons p rest ih =>
    obtain ⟨k', w⟩ := p
    by_cases h : k' = k
    · subst h; simp [mapSet, mapGet]
    · simp [mapSet, mapGet, h, ih]

theorem jsFalsy_some_of_ne {s : String} (h : s ≠ "") : jsFalsy (some s) = false := by
  simp [jsFalsy, h]

/-- `send_message` never touches the registry maps or the connection
set: only `messageHistory` changes. -/
theorem send_message_preserves (st : ServerState) (sid : String) (d : SendData)
    (mid now : String) :
    (send_message st sid d mid now).state.users = st.users
  ∧ (send_message st sid d mid now).state.userSessions = st.userSessions
  ∧ (send_message st sid d mid now).state.connections = st.connections := by
  unfold send_message
  dsimp only
  split
  · exact ⟨rfl, rfl, rfl⟩
  · split <;> exact ⟨rfl, rfl, rfl⟩

/-- For a registered sender, `send_message` appends exactly the built
message object (with the cap rule) to the history. -/
theorem send_message_history_registered (st : ServerState) (sid senderId : String)
    (sender : User) (d : SendData) (mid now : String)
    (hs : mapGet st.userSessions sid = some senderId) (hne : senderId ≠ "")
    (hu : mapGet st.users senderId = some sender) :
    (send_message st sid d mid now).state.messageHistory
      = pushCap st.messageHistory (mkMessageObj senderId sender d mid now) := by
  unfold send_message
  rw [hs]
  simp only [jsFalsy_some_of_ne hne, Bool.false_eq_true, if_false, Option.getD_some]
  rw [hu]

theorem pushCap_of_lt (hist : List Message) (m : Message) (h : hist.length < 100) :
    pushCap hist m = hist ++ [m] := by
  unfold pushCap
  rw [if_neg]
  simp only [List.length_append, List.length_singleton]
  omega

theorem pushCap_of_eq (hist : List Message) (m : Message) (h : hist.length = 100) :
    pushCap hist m = (hist ++ [m]).tail := by
  unfold pushCap
  rw [if_pos]
  simp only [List.length_append, List.length_singleton]
  omega

/-- Folding the capped append over a batch of messages keeps exactly the
most recent (at most) 100 entries, in order. -/
theorem foldl_pushCap_drop (l : List Message) :
    ∀ h : List Message, h.length ≤ 100 →
      List.foldl pushCap h l = (h ++ l).drop (h.length + l.length - 100) := by
  induction l with
  | nil =>
    intro h hh
    simp only [List.foldl_nil, List.append_nil, List.length_nil, Nat.add_zero]
    rw [Nat.sub_eq_zero_of_le hh, List.drop_zero]
  | cons m rest ih =>
    intro h hh
    rw [List.foldl_cons]
    by_cases hc : h.length < 100
    · rw [pushCap_of_lt h m hc, ih (h ++ [m]) (by simp; omega)]
      have e1 : (h ++ [m]) ++ rest = h ++ m :: rest := by simp
      rw [e1]
      congr 1
      simp
      omega
    · have h100 : h.length = 100 := by omega
      cases h with
      | nil => simp at h100
      | cons a t =>
        have ht : t.length = 99 := by simpa using h100
        rw [pushCap_of_eq _ m h100]
        have htail : ((a :: t) ++ [m]).tail = t ++ [m] := by simp
        rw [htail, ih (t ++ [m]) (by simp [ht])]
        have e1 : (t ++ [m]) ++ rest = t ++ m :: rest := by simp
        have e2 : (a :: t) ++ m :: rest = a :: (t ++ m :: rest) := by simp
        have e3 : (t ++ [m]).length + rest.length - 100 = rest.length := by
          simp [ht]
        have e4 : (a :: t).length + (m :: rest).length - 100 = rest.length + 1 := by
          simp only [List.length_cons, ht]
          omega
        rw [e1, e2, e3, e4, List.drop_succ_cons]

/-- Running a batch of sends from a registered sender folds the capped
append over the corresponding message objects. -/
theorem runSends_history (sid senderId : String) (sender : User)
    (inputs : List SendInput) :
    ∀ st : ServerState,
      mapGet st.userSessions sid = some senderId → senderId ≠ "" →
      mapGet st.users senderId = some sender →
      (runSends st sid inputs).messageHistory
        = List.foldl pushCap st.messageHistory (inputs.map (msgOf senderId sender)) := by
  induction inputs with
  | nil => intro st _ _ _; rfl
  | cons i rest ih =>
    intro st hs hne hu
    simp only [runSends, List.map_cons, List.foldl_cons]
    have hpres := send_message_preserves st sid i.data i.msgId i.now
    have hh := send_message_history_registered st sid senderId sender i.data i.msgId i.now hs hne hu
    rw [ih ((send_message st sid i.data i.msgId i.now).state)
          (by rw [hpres.2.1]; exact hs) hne (by rw [hpres.1]; exact hu)]
    rw [hh]
    rfl

/-! ### Claims -/

/-- **C4.** The message history length never exceeds the fixed cap of
100 after any operation; a successful send at the cap evicts the oldest
entry (FIFO): after a batch of sends from a registered sender the
history is exactly the most recent (at most) 100 messages in send
order, so starting empty, after cap+1 sends the very first message is
absent and the remaining 100 are the most recent ones in order. -/
theorem C4_history_fifo_cap (st : ServerState) (sid senderId : String) (sender : User)
    (inputs : List SendInput)
    (hs : mapGet st.userSessions sid = some senderId) (hne : senderId ≠ "")
    (hu : mapGet st.users senderId = some sender)
    (hcap : st.messageHistory.length ≤ 100) :
    (runSends st sid inputs).messageHistory
        = (st.messageHistory ++ inputs.map (msgOf senderId sender)).drop
            (st.messageHistory.length + inputs.length - 100)
  ∧ (runSends st sid inputs).messageHistory.length ≤ 100
  ∧ (st.messageHistory = [] → inputs.length = 101 →
      (runSends st sid inputs).messageHistory
        = (inputs.map (msgOf senderId sender)).drop 1) := by
  have h1 : (runSends st sid inputs).messageHistory
      = (st.messageHistory ++ inputs.map (msgOf senderId sender)).drop
          (st.messageHistory.length + inputs.length - 100) := by
    rw [runSends_history sid senderId sender inputs st hs hne hu,
        foldl_pushCap_drop _ _ hcap, List.length_map]
  refine ⟨h1, ?_, ?_⟩
  · rw [h1]
    simp only [List.length_drop, List.length_append, List.length_map]
    omega
  · intro hnil hlen
    rw [h1, hnil, hlen]
    simp

/-- Three broadcast sends used to instantiate C4. -/
def inputsC4 : List SendInput :=
  [⟨⟨some "one", none, none⟩, "m1", "t1"⟩,
   ⟨⟨some "two", none, none⟩, "m2", "t2"⟩,
   ⟨⟨some "three", none, none⟩, "m3", "t3"⟩]

/-- Witness for C4 at a concrete registered sender and send batch. -/
theorem C4_witness :
    (runSends stAlice "A" inputsC4).messageHistory
        = (stAlice.messageHistory ++ inputsC4.map (msgOf "A" ⟨"A", "alice", "pk", "A", "t0"⟩)).drop
            (stAlice.messageHistory.length + inputsC4.length - 100)
  ∧ (runSends stAlice "A" inputsC4).messageHistory.length ≤ 100
  ∧ (stAlice.messageHistory = [] → inputsC4.length = 101 →
      (runSends stAlice "A" inputsC4).messageHistory
        = (inputsC4.map (msgOf "A" ⟨"A", "alice", "pk", "A", "t0"⟩)).drop 1) :=
  C4_history_fifo_cap stAlice "A" "A" ⟨"A", "alice", "pk", "A", "t0"⟩ inputsC4
    (by decide) (by decide) (by decide) (by decide)

/-- **C1 counterexample.** After `alice` registered on connection `"A"`,
a second `user_login` on `"A"` (as `bob`) emits no error at all and the
stored User for `"A"` becomes the new record: the prior User *is*
silently replaced, refuting the claimed InvalidName-class rejection. -/
theorem C1_counterexample :
    ((user_login stAlice "A" ⟨some "bob", some "pk2"⟩ "t1").2.all
        (fun e => !isErrorEvent e.2)) = true
  ∧ mapGet stAlice.users "A" = some ⟨"A", "alice", "pk", "A", "t0"⟩
  ∧ mapGet (user_login stAlice "A" ⟨some "bob", some "pk2"⟩ "t1").1.users "A"
      = some ⟨"A", "bob", "pk2", "A", "t1"⟩ := by decide

/-- **C1 (amended).** A second `user_login` on a connection id that
already has a registered User is not rejected: with truthy username and
public key it silently replaces the existing User record
(last-write-wins) and emits no error event. -/
theorem C1_duplicate_join_replaces (st : ServerState) (sid : String) (data : LoginData)
    (now : String) (oldUser : User)
    (_hold : mapGet st.users sid = some oldUser)
    (hu : jsFalsy data.username = false) (hp : jsFalsy data.publicKey = false) :
    mapGet (user_login st sid data now).1.users sid = some (loginUser sid data now)
  ∧ ((user_login st sid data now).2.all (fun e => !isErrorEvent e.2)) = true := by
  constructor
  · simp only [user_login, hu, hp, Bool.or_self, Bool.false_eq_true, if_false]
    exact mapGet_mapSet_self st.users sid (loginUser sid data now)
  · simp [user_login, hu, hp, isErrorEvent]

/-- Witness for C1 at the concrete duplicate join of `C1_counterexample`. -/
theorem C1_witness :
    mapGet (user_login stAlice "A" ⟨some "bob", some "pk2"⟩ "t1").1.users "A"
        = some (loginUser "A" ⟨some "bob", some "pk2"⟩ "t1")
  ∧ ((user_login stAlice "A" ⟨some "bob", some "pk2"⟩ "t1").2.all
        (fun e => !isErrorEvent e.2)) = true :=
  C1_duplicate_join_replaces stAlice "A" ⟨some "bob", some "pk2"⟩ "t1"
    ⟨"A", "alice", "pk", "A", "t0"⟩ (by decide) (by decide) (by decide)

/-- **C2 counterexample.** The name `"abcdefghijklmnopqrstuvwxyz12345"`
has trimmed length 31 > 30, yet `user_login` accepts it: no error is
emitted and the User is stored — refuting the claim that registration
fails exactly when the trimmed length is < 1 or > 30. -/
theorem C2_counterexample :
    30 < (jsTrim "abcdefghijklmnopqrstuvwxyz12345").length
  ∧ ((user_login stA "A" ⟨some "abcdefghijklmnopqrstuvwxyz12345", some "pk"⟩ "t0").2.all
        (fun e => !isErrorEvent e.2)) = true
  ∧ mapGet (user_login stA "A" ⟨some "abcdefghijklmnopqrstuvwxyz12345", some "pk"⟩ "t0").1.users "A"
      = some ⟨"A", "abcdefghijklmnopqrstuvwxyz12345", "pk", "A", "t0"⟩ := by decide

/-- **C2 (amended).** Registration fails — with the error
`"Username and public key required"` and unchanged state — exactly when
the (untrimmed) username or the public key is missing or empty; there
is no trimmed-length or 30-character check.  Whenever both fields are
truthy, registration succeeds with no error and `get` on the same id
returns a User whose display name is the trimmed name. -/
theorem C2_register_validation (st : ServerState) (sid : String) (data : LoginData)
    (now : String) :
    ((jsFalsy data.username || jsFalsy data.publicKey) = true →
        user_login st sid data now
          = (st, [(Target.sock sid, Event.error "Username and public key required")]))
  ∧ ((jsFalsy data.username || jsFalsy data.publicKey) = false →
        mapGet (user_login st sid data now).1.users sid = some (loginUser sid data now)
      ∧ ((user_login st sid data now).2.all (fun e => !isErrorEvent e.2)) = true) := by
  constructor
  · intro h
    simp [user_login, h]
  · intro h
    constructor
    · simp only [user_login, h, Bool.false_eq_true, if_false]
      exact mapGet_mapSet_self st.users sid (loginUser sid data now)
    · simp [user_login, h, isErrorEvent]

/-- Witness for C2: the name `" bob "` (trimmed: `"bob"`) registers and
is stored trimmed. -/
theorem C2_witness :
    mapGet (user_login stA "A" ⟨some " bob ", some "pk"⟩ "t0").1.users "A"
        = some (loginUser "A" ⟨some " bob ", some "pk"⟩ "t0")
  ∧ ((user_login stA "A" ⟨some " bob ", some "pk"⟩ "t0").2.all
        (fun e => !isErrorEvent e.2)) = true :=
  (C2_register_validation stA "A" ⟨some " bob ", some "pk"⟩ "t0").2 (by decide)

/-- Full description of `send_message` for a registered sender: the
built message object is appended to history (with the cap rule) before
the recipient branch decides the emissions, and the handler throws at
the final log statement exactly when the payload field was absent. -/
theorem send_message_registered (st : ServerState) (sid senderId : String) (sender : User)
    (d : SendData) (mid now : String)
    (hs : mapGet st.userSessions sid = some senderId) (hne : senderId ≠ "")
    (hu : mapGet st.users senderId = some sender) :
    send_message st sid d mid now =
      ⟨{ st with messageHistory := pushCap st.messageHistory (mkMessageObj senderId sender d mid now) },
       if jsFalsy d.recipientId then
         [ (Target.all, Event.receive_message (mkMessageObj senderId sender d mid now)),
           (Target.sock sid, Event.message_sent mid now) ]
       else
         match mapGet st.users (d.recipientId.getD "") with
         | some recipient =>
             [ (Target.sock recipient.socketId,
                 Event.receive_message (mkMessageObj senderId sender d mid now)),
               (Target.sock sid, Event.message_sent mid now) ]
         | none => [ (Target.sock sid, Event.error "Recipient not found") ],
       d.encryptedMessage.isNone⟩ := by
  unfold send_message
  rw [hs]
  simp only [Option.getD_some, jsFalsy_some_of_ne hne, Bool.false_eq_true, if_false]
  rw [hu]
  rfl

/-- **C3 counterexample.** With `alice` registered and an empty history,
a direct send to the unknown id `"xyz"` does emit the
`"Recipient not found"` error to the sender only — but the message has
already been appended: the history length goes from 0 to 1, refuting
"the message history is exactly the same after the call". -/
theorem C3_counterexample :
    (send_message stAlice "A" ⟨some "hi", some "xyz", none⟩ "m1" "t1").emits
        = [(Target.sock "A", Event.error "Recipient not found")]
  ∧ stAlice.messageHistory = []
  ∧ (send_message stAlice "A" ⟨some "hi", some "xyz", none⟩ "m1" "t1").state.messageHistory
        = [⟨"m1", ⟨"A", "alice"⟩, some "hi", "t1", "direct"⟩] := by decide

/-- **C3 (amended).** A send by a registered sender to a recipient
connection id that is not registered emits exactly one
`"Recipient not found"` error to the originating socket and delivers to
nobody — but the message object has already been appended to the
history (with the cap rule) before the recipient check, so the history
is *not* left unchanged. -/
theorem C3_unknown_recipient (st : ServerState) (sid senderId : String) (sender : User)
    (d : SendData) (mid now : String)
    (hs : mapGet st.userSessions sid = some senderId) (hne : senderId ≠ "")
    (hu : mapGet st.users senderId = some sender)
    (hr : jsFalsy d.recipientId = false)
    (hnone : mapGet st.users (d.recipientId.getD "") = none) :
    (send_message st sid d mid now).emits
        = [(Target.sock sid, Event.error "Recipient not found")]
  ∧ (send_message st sid d mid now).state.messageHistory
        = pushCap st.messageHistory (mkMessageObj senderId sender d mid now) := by
  rw [send_message_registered st sid senderId sender d mid now hs hne hu]
  simp [hr, hnone]

/-- Witness for C3 at the concrete unknown recipient `"xyz"`. -/
theorem C3_witness :
    (send_message stAlice "A" ⟨some "hi", some "xyz", none⟩ "m1" "t1").emits
        = [(Target.sock "A", Event.error "Recipient not found")]
  ∧ (send_message stAlice "A" ⟨some "hi", some "xyz", none⟩ "m1" "t1").state.messageHistory
        = pushCap stAlice.messageHistory
            (mkMessageObj "A" ⟨"A", "alice", "pk", "A", "t0"⟩ ⟨some "hi", some "xyz", none⟩ "m1" "t1") :=
  C3_unknown_recipient stAlice "A" "A" ⟨"A", "alice", "pk", "A", "t0"⟩
    ⟨some "hi", some "xyz", none⟩ "m1" "t1"
    (by decide) (by decide) (by decide) (by decide) (by decide)

/-- **C5 counterexample.** With sockets `"A"` and `"B"` connected but
only `"A"` registered, a broadcast send from `"A"` is emitted via
`io.emit`, whose resolved audience is `["A", "B"]` — including the
*unregistered* connection `"B"` — refuting "the delivery target set is
exactly the currently-registered connections". -/
theorem C5_counterexample :
    (send_message stAliceB "A" ⟨some "hi", none, none⟩ "m1" "t1").emits
        = [ (Target.all, Event.receive_message ⟨"m1", ⟨"A", "alice"⟩, some "hi", "t1", "direct"⟩),
            (Target.sock "A", Event.message_sent "m1" "t1") ]
  ∧ deliveryTargets stAliceB Target.all = ["A", "B"]
  ∧ mapGet stAliceB.users "B" = none := by decide

/-- **C5 (amended).** A broadcast send (no truthy recipient id) by a
registered sender emits the message via `io.emit`, whose audience is
every currently *connected* socket — registered or not, the sender
included — and additionally acks the sender alone with `message_sent`
carrying the message id and timestamp. -/
theorem C5_broadcast_targets (st : ServerState) (sid senderId : String) (sender : User)
    (d : SendData) (mid now : String)
    (hs : mapGet st.userSessions sid = some senderId) (hne : senderId ≠ "")
    (hu : mapGet st.users senderId = some sender)
    (hr : jsFalsy d.recipientId = true) :
    (send_message st sid d mid now).emits
        = [ (Target.all, Event.receive_message (mkMessageObj senderId sender d mid now)),
            (Target.sock sid, Event.message_sent mid now) ]
  ∧ (send_message st sid d mid now).state.connections = st.connections
  ∧ deliveryTargets st Target.all = st.connections := by
  rw [send_message_registered st sid senderId sender d mid now hs hne hu]
  exact ⟨by simp [hr], rfl, rfl⟩

/-- Witness for C5 at a concrete broadcast send. -/
theorem C5_witness :
    (send_message stAliceB "A" ⟨some "hi", none, none⟩ "m1" "t1").emits
        = [ (Target.all, Event.receive_message
                (mkMessageObj "A" ⟨"A", "alice", "pk", "A", "t0"⟩ ⟨some "hi", none, none⟩ "m1" "t1")),
            (Target.sock "A", Event.message_sent "m1" "t1") ]
  ∧ (send_message stAliceB "A" ⟨some "hi", none, none⟩ "m1" "t1").state.connections
        = stAliceB.connections
  ∧ deliveryTargets stAliceB Target.all = stAliceB.connections :=
  C5_broadcast_targets stAliceB "A" "A" ⟨"A", "alice", "pk", "A", "t0"⟩
    ⟨some "hi", none, none⟩ "m1" "t1" (by decide) (by decide) (by decide) (by decide)

/-- **C7 counterexample.** With `alice` registered, a broadcast send
carrying the client-supplied `senderUsername := "mallory"` produces a
message whose sender username is `"mallory"` — not the registered
display name `"alice"` — and whose `type` is `"direct"` even though the
recipient id is absent (broadcast): both halves of the claim fail. -/
theorem C7_counterexample :
    (send_message stAlice "A" ⟨some "hi", none, some "mallory"⟩ "m1" "t1").state.messageHistory
        = [⟨"m1", ⟨"A", "mallory"⟩, some "hi", "t1", "direct"⟩]
  ∧ mapGet stAlice.users "A" = some ⟨"A", "alice", "pk", "A", "t0"⟩
  ∧ (send_message stAlice "A" ⟨some "hi", none, some "mallory"⟩ "m1" "t1").emits
        = [ (Target.all, Event.receive_message ⟨"m1", ⟨"A", "mallory"⟩, some "hi", "t1", "direct"⟩),
            (Target.sock "A", Event.message_sent "m1" "t1") ] := by decide

/-- **C7 (amended).** Every message created by a registered sender's
send carries the sender's connection id, but its username field is the
client-supplied `senderUsername` whenever that field is truthy, falling
back to the registered display name only otherwise; and its `type`
field is the constant `"direct"` regardless of whether a recipient id
was given (there is no `broadcast` delivery-class value). -/
theorem C7_message_fields (st : ServerState) (sid senderId : String) (sender : User)
    (d : SendData) (mid now : String)
    (hs : mapGet st.userSessions sid = some senderId) (hne : senderId ≠ "")
    (hu : mapGet st.users senderId = some sender) :
    (send_message st sid d mid now).state.messageHistory
        = pushCap st.messageHistory (mkMessageObj senderId sender d mid now)
  ∧ (mkMessageObj senderId sender d mid now).sender.id = senderId
  ∧ (mkMessageObj senderId sender d mid now).sender.username
        = jsOr d.senderUsername sender.username
  ∧ (mkMessageObj senderId sender d mid now).type = "direct" :=
  ⟨send_message_history_registered st sid senderId sender d mid now hs hne hu,
   rfl, rfl, rfl⟩

/-- Witness for C7 at the concrete spoofed-username broadcast send. -/
theorem C7_witness :
    (send_message stAlice "A" ⟨some "hi", none, some "mallory"⟩ "m1" "t1").state.messageHistory
        = pushCap stAlice.messageHistory
            (mkMessageObj "A" ⟨"A", "alice", "pk", "A", "t0"⟩ ⟨some "hi", none, some "mallory"⟩ "m1" "t1")
  ∧ (mkMessageObj "A" ⟨"A", "alice", "pk", "A", "t0"⟩ ⟨some "hi", none, some "mallory"⟩ "m1" "t1").sender.id = "A"
  ∧ (mkMessageObj "A" ⟨"A", "alice", "pk", "A", "t0"⟩ ⟨some "hi", none, some "mallory"⟩ "m1" "t1").sender.username
        = jsOr (some "mallory") "alice"
  ∧ (mkMessageObj "A" ⟨"A", "alice", "pk", "A", "t0"⟩ ⟨some "hi", none, some "mallory"⟩ "m1" "t1").type = "direct" :=
  C7_message_fields stAlice "A" "A" ⟨"A", "alice", "pk", "A", "t0"⟩
    ⟨some "hi", none, some "mallory"⟩ "m1" "t1" (by decide) (by decide) (by decide)

/-- **C6 counterexample.** When `alice` joins on the only connected
socket `"A"`, the very first emission is the join announcement
`user_connected` with audience `io.emit` — which resolves to `["A"]`,
i.e. it *includes* the new user — refuting "emitted only to all other
connections (not to the new user)".  The online count is not a separate
emission either: it rides on that same announcement. -/
theorem C6_counterexample :
    (user_login stA "A" ⟨some "alice", some "pk"⟩ "t0").2.head?
        = some (Target.all, Event.user_connected "A" "alice" "t0" 1)
  ∧ deliveryTargets (user_login stA "A" ⟨some "alice", some "pk"⟩ "t0").1 Target.all
        = ["A"] := by decide

/-- **C6 (amended).** On every successful join the handler emits exactly
three events, in order: the join announcement `user_connected` — which
carries the new user's id, raw name and the updated total online count
— to *all* connected sockets, the new user included; then, to the new
user alone, the full online-user list (id, display name, public key)
and the history replay (last 30 messages). -/
theorem C6_join_emissions (st : ServerState) (sid : String) (data : LoginData)
    (now : String)
    (hu : jsFalsy data.username = false) (hp : jsFalsy data.publicKey = false) :
    (user_login st sid data now).2
      = [ (Target.all, Event.user_connected sid (data.username.getD "") now
              (mapSet st.users sid (loginUser sid data now)).length),
          (Target.sock sid, Event.online_users
              ((mapSet st.users sid (loginUser sid data now)).map (fun p =>
                { id := p.2.id, username := p.2.username, publicKey := p.2.publicKey }))),
          (Target.sock sid, Event.message_history (recentHistory st.messageHistory 30)) ]
  ∧ deliveryTargets (user_login st sid data now).1 Target.all
      = (user_login st sid data now).1.connections := by
  refine ⟨?_, rfl⟩
  simp [user_login, hu, hp]

/-- Witness for C6 at the concrete join of `alice` on socket `"A"`. -/
theorem C6_witness :
    (user_login stA "A" ⟨some "alice", some "pk"⟩ "t0").2
      = [ (Target.all, Event.user_connected "A" "alice" "t0"
              (mapSet stA.users "A" (loginUser "A" ⟨some "alice", some "pk"⟩ "t0")).length),
          (Target.sock "A", Event.online_users
              ((mapSet stA.users "A" (loginUser "A" ⟨some "alice", some "pk"⟩ "t0")).map (fun p =>
                { id := p.2.id, username := p.2.username, publicKey := p.2.publicKey }))),
          (Target.sock "A", Event.message_history (recentHistory stA.messageHistory 30)) ]
  ∧ deliveryTargets (user_login stA "A" ⟨some "alice", some "pk"⟩ "t0").1 Target.all
      = (user_login stA "A" ⟨some "alice", some "pk"⟩ "t0").1.connections :=
  C6_join_emissions stA "A" ⟨some "alice", some "pk"⟩ "t0" (by decide) (by decide)

/-- **C8 counterexample.** With `alice` registered, a send whose payload
field is absent is *not* rejected: the malformed message is appended to
the history (and broadcast), and the handler then throws a `TypeError`
at the final log statement — refuting "does not throw and does not
append to history". -/
theorem C8_counterexample :
    (send_message stAlice "A" ⟨none, none, none⟩ "m1" "t1").threw = true
  ∧ (send_message stAlice "A" ⟨none, none, none⟩ "m1" "t1").state.messageHistory
        = [⟨"m1", ⟨"A", "alice"⟩, none, "t1", "direct"⟩] := by decide

/-- **C8 (amended).** The send handler performs no shape validation on
the payload: for a registered sender, a send with a missing
`encryptedMessage` field still appends the (payload-less) message
object to the history and only afterwards throws a `TypeError` at the
log statement `encryptedMessage.substring(0, 20)` — caught solely by
the process-wide `uncaughtException` hook, so the process survives but
the handler neither validates before delegating nor leaves the history
unchanged. -/
theorem C8_missing_payload (st : ServerState) (sid senderId : String) (sender : User)
    (d : SendData) (mid now : String)
    (hs : mapGet st.userSessions sid = some senderId) (hne : senderId ≠ "")
    (hu : mapGet st.users senderId = some sender)
    (hmiss : d.encryptedMessage = none) :
    (send_message st sid d mid now).threw = true
  ∧ (send_message st sid d mid now).state.messageHistory
        = pushCap st.messageHistory (mkMessageObj senderId sender d mid now) := by
  rw [send_message_registered st sid senderId sender d mid now hs hne hu]
  exact ⟨by simp [hmiss], rfl⟩

/-- Witness for C8 at the concrete payload-less send. -/
theorem C8_witness :
    (send_message stAlice "A" ⟨none, none, none⟩ "m1" "t1").threw = true
  ∧ (send_message stAlice "A" ⟨none, none, none⟩ "m1" "t1").state.messageHistory
        = pushCap stAlice.messageHistory
            (mkMessageObj "A" ⟨"A", "alice", "pk", "A", "t0"⟩ ⟨none, none, none⟩ "m1" "t1") :=
  C8_missing_payload stAlice "A" "A" ⟨"A", "alice", "pk", "A", "t0"⟩
    ⟨none, none, none⟩ "m1" "t1" (by decide) (by decide) (by decide) (by decide)

/-- **C9.** A send from a connection id with no registered user — no
session entry at all (send before join, or after disconnect cleanup
deleted it), or a session whose user record is gone — changes nothing:
the state (and hence the history) is returned untouched, nothing is
delivered, the handler does not throw, and the only emission is a
SenderNotRegistered-class error to the originating socket. -/
theorem C9_unregistered_sender (st : ServerState) (sid : String) (d : SendData)
    (mid now : String)
    (h : jsFalsy (mapGet st.userSessions sid) = true
         ∨ mapGet st.users ((mapGet st.userSessions sid).getD "") = none) :
    (send_message st sid d mid now).state = st
  ∧ ((send_message st sid d mid now).emits
        = [(Target.sock sid, Event.error "User not authenticated")]
     ∨ (send_message st sid d mid now).emits
        = [(Target.sock sid, Event.error "Sender not found")])
  ∧ (send_message st sid d mid now).threw = false := by
  by_cases hf : jsFalsy (mapGet st.userSessions sid) = true
  · unfold send_message
    rw [if_pos hf]
    exact ⟨rfl, Or.inl rfl, rfl⟩
  · have hn : mapGet st.users ((mapGet st.userSessions sid).getD "") = none := by
      rcases h with h | h
      · exact absurd h hf
      · exact h
    unfold send_message
    rw [if_neg hf]
    simp only [hn]
    exact ⟨trivial, Or.inr trivial, trivial⟩

/-- Witness for C9: a connected but never-registered socket sends. -/
theorem C9_witness :
    (send_message stA "A" ⟨some "hi", none, none⟩ "m1" "t1").state = stA
  ∧ ((send_message stA "A" ⟨some "hi", none, none⟩ "m1" "t1").emits
        = [(Target.sock "A", Event.error "User not authenticated")]
     ∨ (send_message stA "A" ⟨some "hi", none, none⟩ "m1" "t1").emits
        = [(Target.sock "A", Event.error "Sender not found")])
  ∧ (send_message stA "A" ⟨some "hi", none, none⟩ "m1" "t1").threw = false :=
  C9_unregistered_sender stA "A" ⟨some "hi", none, none⟩ "m1" "t1" (Or.inl (by decide))

/-- **C10.** `recentHistory limit` is the most recent `limit` messages
of the history in oldest-first order — its length is
`min limit (history length)` and it is the exact tail slice of the
stored history — and the replay a newly joined user receives (the last
emission of a successful `user_login`) is exactly this read-only slice
at limit 30, independent of the 100-entry storage cap. -/
theorem C10_recent_history (st : ServerState) (sid : String) (data : LoginData)
    (now : String) (limit : Nat)
    (hu : jsFalsy data.username = false) (hp : jsFalsy data.publicKey = false) :
    (recentHistory st.messageHistory limit).length
        = min limit st.messageHistory.length
  ∧ st.messageHistory.take (st.messageHistory.length - limit)
        ++ recentHistory st.messageHistory limit = st.messageHistory
  ∧ (user_login st sid data now).2.getLast?
      = some (Target.sock sid, Event.message_history (recentHistory st.messageHistory 30)) := by
  refine ⟨?_, ?_, ?_⟩
  · simp only [recentHistory, List.length_drop]
    omega
  · exact List.take_append_drop _ _
  · simp [user_login, hu, hp]

/-- Witness for C10 at the join of `alice` on socket `"A"`. -/
theorem C10_witness :
    (recentHistory stA.messageHistory 30).length = min 30 stA.messageHistory.length
  ∧ stA.messageHistory.take (stA.messageHistory.length - 30)
        ++ recentHistory stA.messageHistory 30 = stA.messageHistory
  ∧ (user_login stA "A" ⟨some "alice", some "pk"⟩ "t0").2.getLast?
      = some (Target.sock "A", Event.message_history (recentHistory stA.messageHistory 30)) :=
  C10_recent_history stA "A" ⟨some "alice", some "pk"⟩ "t0" 30 (by decide) (by decide)
